import Mathlib

/-!
Verification of the lmproxy gateway against its natural-language design
specification.  The Python sources under `flask_services/` and
`client-integration/` are embedded shallowly as executable Lean
definitions; the `api_server` protocol-engine module, whose behaviour is
pinned down by the design document and its test suite, is modelled from
the specification text.  Theorems below settle the frozen claims.
-/

namespace LMProxy

/-! ## String utilities

Executable counterparts of the Python string operations the sources use
(`in`, `split`, `replace`, `strip`, `startswith`, slicing), implemented
by structural recursion over the character list so that concrete runs
reduce inside the kernel. -/

/-- If `pat` is a prefix of `s`, return the remainder of `s`. -/
def dropPrefix? : List Char → List Char → Option (List Char)
  | [], s => some s
  | _ :: _, [] => none
  | p :: ps, c :: cs => if p = c then dropPrefix? ps cs else none

/-- Python `s.split(sep)` for a non-empty separator (fuelled; fuel
`s.length` suffices). -/
def splitOnCharsF (sep : List Char) : Nat → List Char → List (List Char)
  | _, [] => [[]]
  | 0, s => [s]
  | fuel + 1, c :: rest =>
      match dropPrefix? sep (c :: rest) with
      | some after => [] :: splitOnCharsF sep fuel after
      | none =>
          match splitOnCharsF sep fuel rest with
          | r :: rs => (c :: r) :: rs
          | [] => [[c]]

/-- Python `s.replace(pat, repl)` for a non-empty pattern
(left-to-right, non-overlapping). -/
def replaceCharsF (pat repl : List Char) : Nat → List Char → List Char
  | _, [] => []
  | 0, s => s
  | fuel + 1, c :: rest =>
      match dropPrefix? pat (c :: rest) with
      | some after => repl ++ replaceCharsF pat repl fuel after
      | none => c :: replaceCharsF pat repl fuel rest

def strSplitOn (s sep : String) : List String :=
  (splitOnCharsF sep.data s.data.length s.data).map (fun cs => ⟨cs⟩)

def strReplace (s pat repl : String) : String :=
  ⟨replaceCharsF pat.data repl.data s.data.length s.data⟩

/-- Python `pat in s` membership test (non-empty pattern): splitting at
the pattern produces at least two pieces exactly when it occurs. -/
def strContains (s pat : String) : Bool :=
  2 ≤ (strSplitOn s pat).length

def strStartsWith (s pat : String) : Bool :=
  (dropPrefix? pat.data s.data).isSome

def strEndsWith (s pat : String) : Bool :=
  (dropPrefix? pat.data.reverse s.data.reverse).isSome

def strDrop (s : String) (n : Nat) : String :=
  ⟨s.data.drop n⟩

def strDropRight (s : String) (n : Nat) : String :=
  ⟨s.data.take (s.data.length - n)⟩

def strLength (s : String) : Nat :=
  s.data.length

def isWsChar (c : Char) : Bool :=
  c = ' ' || c = '\n' || c = '\t' || c = '\r'

/-- Python `s.strip()`. -/
def strTrim (s : String) : String :=
  ⟨((s.data.dropWhile isWsChar).reverse.dropWhile isWsChar).reverse⟩

/-- Python `sep.join(parts)`. -/
def strIntercalate (sep : String) : List String → String
  | [] => ""
  | [x] => x
  | x :: y :: rest => x ++ sep ++ strIntercalate sep (y :: rest)

/-- Concatenation of a list of strings. -/
def strJoin : List String → String
  | [] => ""
  | s :: rest => s ++ strJoin rest

/-! ## flask_services/app.py — `require_api_key`

The decorator guards a wrapped Flask handler.  Python truthiness of
`Config.FLASK_API_KEY` (`None` or `""` both skip the check) is modelled
by `keyConfigured`.  `auth_header.split(' ')[1]` is `String.splitOn " "`
at index 1. -/

inductive AuthOutcome where
  | unauthorized
  | handled
  deriving DecidableEq, Repr

/-- Python truthiness of the configured key: `None` and `""` are falsy. -/
def keyConfigured (flaskApiKey : Option String) : Bool :=
  match flaskApiKey with
  | none => false
  | some k => k ≠ ""

def require_api_key (flaskApiKey : Option String) (authHeader : Option String) :
    AuthOutcome :=
  if keyConfigured flaskApiKey then
    match authHeader with
    | none => .unauthorized
    | some h =>
      if ¬ strStartsWith h "Bearer " then .unauthorized
      else
        match (strSplitOn h " ")[1]? with
        | some provided =>
            if provided ≠ flaskApiKey.getD "" then .unauthorized else .handled
        | none => .unauthorized
  else .handled

/-! ## client-integration/lmarena_platform_integration.py

`PlatformIntegration` keeps a statistics record and a dictionary of
in-flight requests.  The dictionary of `active_requests` is embedded as
the list of its keys (Python dict keys are unique; deletion removes the
key wherever it occurs). -/

structure Stats where
  requests_processed : Nat
  requests_successful : Nat
  requests_failed : Nat
  last_request_time : Option Nat
  deriving DecidableEq, Repr

def Stats.init : Stats :=
  { requests_processed := 0, requests_successful := 0
    requests_failed := 0, last_request_time := none }

/-- `record_request`: bump the processed counter, stamp the time, and bump
the success or failure counter. -/
def record_request (st : Stats) (success : Bool) (now : Nat) : Stats :=
  { requests_processed := st.requests_processed + 1
    requests_successful := st.requests_successful + (if success then 1 else 0)
    requests_failed := st.requests_failed + (if success then 0 else 1)
    last_request_time := some now }

/-- Statistics states reachable from a fresh `PlatformIntegration`
instance: the constructor zeroes the counters and every later mutation
goes through `record_request`. -/
inductive ReachableStats : Stats → Prop where
  | init : ReachableStats Stats.init
  | step (st : Stats) (success : Bool) (now : Nat) :
      ReachableStats st → ReachableStats (record_request st success now)

/-- `get_stats`'s success-rate expression
`requests_successful / max(requests_processed, 1) * 100`, over ℚ. -/
def success_rate (st : Stats) : ℚ :=
  (st.requests_successful : ℚ) / (max st.requests_processed 1 : ℚ) * 100

structure PIState where
  stats : Stats
  active_requests : List String
  deriving DecidableEq, Repr

/-- Python `self.active_requests[request_id] = {...}`: dict insertion
keeps keys unique. -/
def dictInsert (l : List String) (k : String) : List String :=
  if k ∈ l then l else l ++ [k]

/-- Python `del self.active_requests[request_id]` (guarded by a
membership test): the key is absent afterwards. -/
def dictDelete (l : List String) (k : String) : List String :=
  l.filter (fun k₂ => k₂ ≠ k)

/-- Result dictionary of `handle_platform_request`, abstracted to the
field the code inspects (`'error' in result`) plus its payload text. -/
structure ResultDict where
  isError : Bool
  text : String
  deriving DecidableEq, Repr

/-- The three typed handlers return fixed non-error placeholder
dictionaries; any other type produces the unsupported-type error dict. -/
def routeRequest (request_type : String) : ResultDict :=
  if request_type = "chat_completion" then
    ⟨false, "Chat completion request received and being processed"⟩
  else if request_type = "models_list" then
    ⟨false, "Models list request processed"⟩
  else if request_type = "image_generation" then
    ⟨false, "Image generation request received and being processed"⟩
  else
    ⟨true, "Unsupported request type: " ++ request_type⟩

/-- `handle_platform_request`.  `request_id?` is `request_data.get('request_id')`
(with Python falsiness: `none` or `some ""` fail the `if not request_id`
guard); `request_type` defaults to `"chat_completion"`.  `exc` models an
exception escaping the `try` body after the request was registered; the
`finally` clause removes the entry on both the normal and the
exceptional path. -/
def handle_platform_request (st : PIState) (request_id? : Option String)
    (request_type : String) (exc : Option String) (now : Nat) :
    ResultDict × PIState :=
  let rid := request_id?.getD ""
  if rid = "" then
    (⟨true, "Missing request_id"⟩, st)
  else
    let active := dictInsert st.active_requests rid
    match exc with
    | some e =>
        (⟨true, "Request processing failed: " ++ e⟩,
         { stats := record_request st.stats false now
           active_requests := dictDelete active rid })
    | none =>
        let result := routeRequest request_type
        (result,
         { stats := record_request st.stats (¬ result.isError) now
           active_requests := dictDelete active rid })

/-! ## api_server — Stream Processor

Modelled from the spec: the `api_server` module itself is absent from the
repository snapshot (only its test suite is present).  §4.4 describes the
Stream Processor: a per-request consumer of tunnel frames producing
`content`/`finish`/`error` events, detecting the anti-bot challenge page
(with a best-effort `refresh` command through the tunnel), the oversized
attachment error, and terminating on the `[DONE]` sentinel or channel
exhaustion, unregistering the request on every exit path. -/

inductive Frame where
  | text (s : String)
  | errorObj (msg : String)
  deriving DecidableEq, Repr

inductive StreamEvent where
  | content (t : String)
  | finish (reason : String)
  | error (msg : String)
  deriving DecidableEq, Repr

def cloudflareMarker : String := "<title>Just a moment...</title>"

def cloudflareErrorText : String :=
  "Cloudflare security challenge detected; a refresh command was sent to the browser. Please retry."

def oversizeErrorText : String :=
  "Upload failed: 附件大小超过了 server limits (HTTP 413). Please reduce the attachment size."

/-- Reverse JSON string escapes in a quoted payload. -/
def unescapeChars : List Char → List Char
  | [] => []
  | '\\' :: c :: rest =>
      (if c = 'n' then '\n' else if c = 't' then '\t' else c) :: unescapeChars rest
  | c :: rest => c :: unescapeChars rest

/-- Split a micro-protocol line at its first `:` into tag and payload. -/
def splitTag (s : String) : Option (String × String) :=
  match strSplitOn s ":" with
  | tag :: p :: rest => some (tag, strIntercalate ":" (p :: rest))
  | _ => none

/-- A content tag is a stream letter (`a` or `b`) followed by digits. -/
def isContentTag (tag : String) : Bool :=
  match tag.data with
  | c :: rest => (c = 'a' || c = 'b') && !rest.isEmpty && rest.all Char.isDigit
  | [] => false

/-- Content-line micro-format: a tagged line carrying a quoted string
payload, e.g. `a0:"Hello"`. -/
def contentPayload? (s : String) : Option String :=
  match splitTag s with
  | some (tag, payload) =>
      if isContentTag tag && strStartsWith payload "\"" && strEndsWith payload "\""
          && 2 ≤ strLength payload then
        some ⟨unescapeChars (strDropRight (strDrop payload 1) 1).data⟩
      else none
  | none => none

/-- Finish-tag micro-format: a `d`-suffixed stream tag carrying a
`finishReason` field, e.g. `bd:\x7b"finishReason":"stop"\x7d`. -/
def finishReason? (s : String) : Option String :=
  match splitTag s with
  | some (tag, payload) =>
      if (tag = "ad" || tag = "bd")
          && strStartsWith payload "\x7b\"finishReason\":\""
          && strEndsWith payload "\"\x7d" && 19 ≤ strLength payload then
        some (strDropRight (strDrop payload 17) 2)
      else none
  | none => none

inductive FrameClass where
  | sentinel
  | cloudflare
  | oversize
  | otherError (e : String)
  | content (t : String)
  | finish (r : String)
  | ignore
  deriving DecidableEq, Repr

def classifyFrame : Frame → FrameClass
  | .errorObj e => if strContains e "413" then .oversize else .otherError e
  | .text s =>
      if strContains s cloudflareMarker then .cloudflare
      else if s = "[DONE]" then .sentinel
      else
        match contentPayload? s with
        | some t => .content t
        | none =>
          match finishReason? s with
          | some r => .finish r
          | none => .ignore

/-- Consume the frames delivered on one request's channel, yielding the
event sequence and the tunnel commands issued as side effects.  Error
detection moves the state machine to its terminal `Failed` state; the
sentinel (or channel exhaustion) moves it to `Done`. -/
def processFrames : List Frame → List StreamEvent × List String
  | [] => ([], [])
  | f :: rest =>
    match classifyFrame f with
    | .sentinel => ([], [])
    | .cloudflare => ([.error cloudflareErrorText], ["refresh"])
    | .oversize => ([.error oversizeErrorText], [])
    | .otherError e => ([.error ("LMArena upstream error: " ++ e)], [])
    | .content t =>
        let r := processFrames rest
        (.content t :: r.1, r.2)
    | .finish reason =>
        let r := processFrames rest
        (.finish reason :: r.1, r.2)
    | .ignore => processFrames rest

/-- The Stream Processor for one request: consume the channel, and in the
`finally` step unregister the request id from the Request Multiplexer's
`response_channels` dictionary.  Returns (events, commands, remaining
registered ids). -/
def process_lmarena_stream (request_id : String) (response_channels : List String)
    (frames : List Frame) : List StreamEvent × List String × List String :=
  let r := processFrames frames
  (r.1, r.2, dictDelete response_channels request_id)

/-! ## api_server — Payload Translator

Modelled from the spec: §4.3 gives the translation rules from an
OpenAI-shaped request to the backend's message-template array. -/

inductive OAIPart where
  | text (s : String)
  | imageUrl (url : String) (detail : Option String)
  deriving DecidableEq, Repr

inductive OAIContent where
  | str (s : String)
  | parts (ps : List OAIPart)
  deriving DecidableEq, Repr

structure OAIMessage where
  role : String
  content : OAIContent
  deriving DecidableEq, Repr

structure Attachment where
  name : String
  contentType : String
  data : String
  deriving DecidableEq, Repr

structure MessageTemplate where
  role : String
  content : String
  participantPosition : String
  attachments : List Attachment
  deriving DecidableEq, Repr

/-- Role normalization: `developer` becomes `system`. -/
def normalizeRole (r : String) : String :=
  if r = "developer" then "system" else r

/-- Build an Attachment from a data-URI content part: content type from
the URI's media-type segment, name from the `detail` field when present,
else generated as `category_suffix.extension` (sequential suffix). -/
def mkAttachment (n : Nat) (url : String) (detail : Option String) : Attachment :=
  let mediaType := if strStartsWith url "data:" then (strSplitOn (strDrop url 5) ";").headD "" else ""
  let category := (strSplitOn mediaType "/").headD "file"
  let ext := ((strSplitOn mediaType "/").get? 1).getD "bin"
  { name := detail.getD (category ++ "_" ++ toString n ++ "." ++ ext)
    contentType := mediaType
    data := url }

/-- Extract the concatenated text and the attachment list from a typed
content-part list (text parts concatenate in source order). -/
def extractParts : Nat → List OAIPart → String × List Attachment
  | _, [] => ("", [])
  | n, .text s :: rest =>
      let r := extractParts n rest
      (s ++ r.1, r.2)
  | n, .imageUrl url detail :: rest =>
      let r := extractParts (n + 1) rest
      (r.1, mkAttachment n url detail :: r.2)

/-- `_process_openai_message`: normalize the role, extract text and
attachments, and substitute a single space for an empty/all-whitespace
`user` text. -/
def process_openai_message (m : OAIMessage) : String × String × List Attachment :=
  let role := normalizeRole m.role
  let extracted :=
    match m.content with
    | .str s => (s, ([] : List Attachment))
    | .parts ps => extractParts 0 ps
  let text := if role = "user" && strTrim extracted.1 = "" then " " else extracted.1
  (role, text, extracted.2)

structure ModeConfig where
  tavern_mode_enabled : Bool
  bypass_enabled : Bool
  mode : String
  battle_target : String
  deriving DecidableEq, Repr

/-- Participant-position assignment: in `direct_chat`, system messages
get `b` and user/assistant get `a`; in `battle` the positions follow the
configured target side, system mapping to the opposite side. -/
def participantPositionFor (cfg : ModeConfig) (role : String) : String :=
  if cfg.mode = "battle" then
    if role = "system" then (if cfg.battle_target = "B" then "a" else "b")
    else (if cfg.battle_target = "B" then "b" else "a")
  else
    if role = "system" then "b" else "a"

/-- Gather the leading contiguous block of system messages and the
remainder of the processed message list. -/
def collectLeadingSystem : List (String × String × List Attachment) →
    List String × List (String × String × List Attachment)
  | [] => ([], [])
  | m :: rest =>
      if m.1 = "system" then
        let r := collectLeadingSystem rest
        (m.2.1 :: r.1, r.2)
      else ([], m :: rest)

/-- Tavern mode: merge all leading contiguous system messages into one,
joined with a blank line, with empty attachments. -/
def mergeLeadingSystem (msgs : List (String × String × List Attachment)) :
    List (String × String × List Attachment) :=
  match collectLeadingSystem msgs with
  | ([], _) => msgs
  | (sys, rest) => ("system", strIntercalate "\n\n" sys, ([] : List Attachment)) :: rest

/-- The synthetic trailing message appended in bypass mode. -/
def bypassTemplate : MessageTemplate :=
  { role := "user", content := " ", participantPosition := "a", attachments := [] }

structure LMArenaPayload where
  session_id : String
  message_id : String
  target_model_id : Option String
  message_templates : List MessageTemplate
  deriving DecidableEq, Repr

/-- `convert_openai_to_lmarena_payload`: apply the §4.3 rules in order —
model-id lookup, per-message processing, tavern merging, participant
positions, bypass append. -/
def convert_openai_to_lmarena_payload (cfg : ModeConfig)
    (modelMap : List (String × String)) (model : String)
    (messages : List OAIMessage) (session_id message_id : String) : LMArenaPayload :=
  let processed := messages.map process_openai_message
  let shaped := if cfg.tavern_mode_enabled then mergeLeadingSystem processed else processed
  let templates := shaped.map (fun m =>
    { role := m.1, content := m.2.1
      participantPosition := participantPositionFor cfg m.1
      attachments := m.2.2 : MessageTemplate })
  let templates := if cfg.bypass_enabled then templates ++ [bypassTemplate] else templates
  { session_id := session_id, message_id := message_id
    target_model_id := modelMap.lookup model
    message_templates := templates }

/-! ## api_server — Response Formatter

Modelled from the spec: §4.5 renders Stream Processor events as
OpenAI-compatible SSE chunks or as one aggregated JSON response. -/

def doneLine : String := "data: [DONE]\n\n"

/-- One SSE delta chunk carrying a content fragment. -/
def format_openai_chunk (content model rid : String) : String :=
  "data: \x7b\"id\": \"" ++ rid ++ "\", \"object\": \"chat.completion.chunk\", " ++
  "\"model\": \"" ++ model ++ "\", \"choices\": [\x7b\"index\": 0, " ++
  "\"delta\": \x7b\"content\": \"" ++ content ++ "\"\x7d, \"finish_reason\": null\x7d]\x7d\n\n"

/-- The terminal SSE delta chunk carrying the finish reason. -/
def format_openai_finish_chunk (model rid reason : String) : String :=
  "data: \x7b\"id\": \"" ++ rid ++ "\", \"object\": \"chat.completion.chunk\", " ++
  "\"model\": \"" ++ model ++ "\", \"choices\": [\x7b\"index\": 0, " ++
  "\"delta\": \x7b\x7d, \"finish_reason\": \"" ++ reason ++ "\"\x7d]\x7d\n\n"

/-- A human-readable SSE error payload. -/
def format_openai_error_chunk (msg model rid : String) : String :=
  format_openai_chunk ("[LMArena Bridge Error]: " ++ msg) model rid

/-- Stream mode: each content event becomes one delta chunk, a finish
event becomes a terminal chunk, an error event a single error payload;
the rendered sequence always ends with the literal `data: [DONE]` line,
also on abrupt termination. -/
def sseLines (model rid : String) : List StreamEvent → List String
  | [] => [doneLine]
  | .content t :: rest => format_openai_chunk t model rid :: sseLines model rid rest
  | .finish r :: _ => [format_openai_finish_chunk model rid r, doneLine]
  | .error m :: _ => [format_openai_error_chunk m model rid, doneLine]

inductive NonStreamOutcome where
  | completion (content : String) (reason : String)
  | failure (msg : String)
  deriving DecidableEq, Repr

/-- Non-stream mode collection loop: concatenate content fragments in
arrival order, keep the first finish reason (default `stop`), and turn
an error event into a gateway-level failure. -/
def aggregateEventsFrom : List StreamEvent → String → Option String → NonStreamOutcome
  | [], buf, reason? => .completion buf (reason?.getD "stop")
  | .content t :: rest, buf, reason? => aggregateEventsFrom rest (buf ++ t) reason?
  | .finish r :: rest, buf, reason? =>
      aggregateEventsFrom rest buf (if reason?.isSome then reason? else some r)
  | .error m :: _, _, _ => .failure m

def aggregateEvents (events : List StreamEvent) : NonStreamOutcome :=
  aggregateEventsFrom events "" none

structure ChatCompletion where
  object : String
  model : String
  id : String
  message_content : String
  finish_reason : String
  deriving DecidableEq, Repr

def format_openai_non_stream_response (content model rid reason : String) : ChatCompletion :=
  { object := "chat.completion", model := model, id := rid
    message_content := content, finish_reason := reason }

/-- Non-stream mode end to end: aggregate the event sequence into one
chat-completion object, or surface an error event as a gateway-level
HTTP error. -/
def non_stream_response (model rid : String) (events : List StreamEvent) :
    Except String ChatCompletion :=
  match aggregateEvents events with
  | .completion c r => .ok (format_openai_non_stream_response c model rid r)
  | .failure m => .error m

/-! ## api_server — Gateway HTTP Server: POST /v1/chat/completions

Modelled from the spec: §6 and §7 fix the endpoint's status taxonomy and
its precedence — bearer auth (`401`), tunnel availability (`503`),
placeholder session/message identifiers (`400`), each failing before any
tunnel interaction. -/

structure GatewayConfig where
  api_key : Option String
  session_id : String
  message_id : String
  deriving DecidableEq, Repr

/-- Bearer-token check against the configured key. -/
def validBearerAuth (key : String) (auth : Option String) : Bool :=
  match auth with
  | none => false
  | some h => strStartsWith h "Bearer " && strDrop h 7 = key

/-- Placeholder/invalid session or message identifier. -/
def isPlaceholderId (s : String) : Bool :=
  s = "" || strContains s "YOUR_"

/-- Resolve the session/message identifier pair: a per-model Endpoint
Mapping Entry overrides the global defaults. -/
def resolveIds (cfg : GatewayConfig) (endpointMap : List (String × String × String))
    (model : String) : String × String :=
  match endpointMap.lookup model with
  | some ids => ids
  | none => (cfg.session_id, cfg.message_id)

/-- The endpoint's validation pipeline, returning the HTTP status and
the tunnel commands issued.  `200` is the only branch that talks to the
tunnel. -/
def chat_completions (cfg : GatewayConfig) (endpointMap : List (String × String × String))
    (auth : Option String) (tunnelConnected : Bool) (model : String) :
    Nat × List String :=
  if keyConfigured cfg.api_key && !validBearerAuth (cfg.api_key.getD "") auth then
    (401, [])
  else if !tunnelConnected then
    (503, [])
  else
    let ids := resolveIds cfg endpointMap model
    if isPlaceholderId ids.1 || isPlaceholderId ids.2 then
      (400, [])
    else
      (200, ["chat"])

/-! ## api_server — HTML Model Scraper

Modelled from the spec: §4.6 scans raw page markup for escaped JSON
object literals (double-encoded: backslashes doubled, quotes escaped),
reverses the escaping, parses each as JSON, keeps objects with both `id`
and `publicName`, and deduplicates by `publicName` (first occurrence
wins, insertion order preserved, malformed fragments skipped). -/

def openBrace : Char := '\x7b'
def closeBrace : Char := '\x7d'

inductive Json where
  | str (s : String)
  | num (raw : String)
  | boolean (b : Bool)
  | null
  | arr (elems : List Json)
  | obj (fields : List (String × Json))

mutual

/-- Canonical serialization of a JSON value (used as the deduplication
key for `publicName` values). -/
def jsonToString : Json → String
  | .str s => "\"" ++ s ++ "\""
  | .num raw => raw
  | .boolean true => "true"
  | .boolean false => "false"
  | .null => "null"
  | .arr es => "[" ++ jsonListToString es ++ "]"
  | .obj fs => "\x7b" ++ jsonFieldsToString fs ++ "\x7d"

def jsonListToString : List Json → String
  | [] => ""
  | [e] => jsonToString e
  | e :: e₂ :: rest => jsonToString e ++ "," ++ jsonListToString (e₂ :: rest)

def jsonFieldsToString : List (String × Json) → String
  | [] => ""
  | [(k, v)] => "\"" ++ k ++ "\":" ++ jsonToString v
  | (k, v) :: f :: rest =>
      "\"" ++ k ++ "\":" ++ jsonToString v ++ "," ++ jsonFieldsToString (f :: rest)

end

def skipWs : List Char → List Char
  | c :: rest =>
      if c = ' ' || c = '\n' || c = '\t' || c = '\r' then skipWs rest else c :: rest
  | [] => []

/-- Parse a JSON string body after the opening quote, handling escapes. -/
def parseStringBody : List Char → Option (List Char × List Char)
  | [] => none
  | '"' :: rest => some ([], rest)
  | '\\' :: c :: rest =>
      (parseStringBody rest).map (fun r =>
        ((if c = 'n' then '\n' else if c = 't' then '\t' else c) :: r.1, r.2))
  | c :: rest => (parseStringBody rest).map (fun r => (c :: r.1, r.2))

/-- Collect a run of JSON number characters. -/
def takeNumChars : List Char → List Char × List Char
  | c :: rest =>
      if c.isDigit || c = '-' || c = '.' || c = '+' || c = 'e' || c = 'E' then
        let r := takeNumChars rest
        (c :: r.1, r.2)
      else ([], c :: rest)
  | [] => ([], [])

mutual

def parseValue : Nat → List Char → Option (Json × List Char)
  | 0, _ => none
  | fuel + 1, cs =>
    match skipWs cs with
    | '"' :: rest => (parseStringBody rest).map (fun r => (.str ⟨r.1⟩, r.2))
    | 't' :: 'r' :: 'u' :: 'e' :: rest => some (.boolean true, rest)
    | 'f' :: 'a' :: 'l' :: 's' :: 'e' :: rest => some (.boolean false, rest)
    | 'n' :: 'u' :: 'l' :: 'l' :: rest => some (.null, rest)
    | c :: rest =>
        if c = openBrace then parseObjFields fuel rest
        else if c = '[' then parseArrElems fuel rest
        else
          let r := takeNumChars (c :: rest)
          if r.1.isEmpty then none else some (.num ⟨r.1⟩, r.2)
    | [] => none

def parseObjFields : Nat → List Char → Option (Json × List Char)
  | 0, _ => none
  | fuel + 1, cs =>
    match skipWs cs with
    | c :: rest => if c = closeBrace then some (.obj [], rest)
                   else parseObjFieldsLoop fuel (c :: rest) []
    | [] => none

def parseObjFieldsLoop : Nat → List Char → List (String × Json) →
    Option (Json × List Char)
  | 0, _, _ => none
  | fuel + 1, cs, acc =>
    match skipWs cs with
    | '"' :: rest =>
      match parseStringBody rest with
      | some (key, r₁) =>
        match skipWs r₁ with
        | ':' :: r₂ =>
          match parseValue fuel r₂ with
          | some (v, r₃) =>
            match skipWs r₃ with
            | c :: r₄ =>
                if c = ',' then parseObjFieldsLoop fuel r₄ (acc ++ [(⟨key⟩, v)])
                else if c = closeBrace then some (.obj (acc ++ [(⟨key⟩, v)]), r₄)
                else none
            | [] => none
          | none => none
        | _ => none
      | none => none
    | _ => none

def parseArrElems : Nat → List Char → Option (Json × List Char)
  | 0, _ => none
  | fuel + 1, cs =>
    match skipWs cs with
    | ']' :: rest => some (.arr [], rest)
    | cs' => parseArrElemsLoop fuel cs' []

def parseArrElemsLoop : Nat → List Char → List Json → Option (Json × List Char)
  | 0, _, _ => none
  | fuel + 1, cs, acc =>
    match parseValue fuel cs with
    | some (v, r₁) =>
      match skipWs r₁ with
      | ',' :: r₂ => parseArrElemsLoop fuel r₂ (acc ++ [v])
      | ']' :: r₂ => some (.arr (acc ++ [v]), r₂)
      | _ => none
    | none => none

end

/-- Parse a complete JSON document (whitespace-padded). -/
def parseJson (s : String) : Option Json :=
  match parseValue (2 * strLength s + 2) s.data with
  | some (v, rest) => if (skipWs rest).isEmpty then some v else none
  | none => none

/-- Take a brace-balanced segment starting at an opening brace. -/
def takeBalanced : Nat → List Char → Option (List Char × List Char)
  | _, [] => none
  | depth, c :: rest =>
      if c = openBrace then
        (takeBalanced (depth + 1) rest).map (fun r => (c :: r.1, r.2))
      else if c = closeBrace then
        if depth ≤ 1 then some ([c], rest)
        else (takeBalanced (depth - 1) rest).map (fun r => (c :: r.1, r.2))
      else (takeBalanced depth rest).map (fun r => (c :: r.1, r.2))

/-- An escaped JSON object literal begins with a brace followed by an
escaped quote (the double-encoding convention). -/
def startsEscapedObj : List Char → Bool
  | c₁ :: c₂ :: c₃ :: c₄ :: _ => c₁ = openBrace && c₂ = '\\' && c₃ = '\\' && c₄ = '"'
  | _ => false

/-- Scan the markup for candidate escaped-object fragments. -/
def scanFragments : Nat → List Char → List (List Char)
  | 0, _ => []
  | _, [] => []
  | fuel + 1, c :: rest =>
      if startsEscapedObj (c :: rest) then
        match takeBalanced 0 (c :: rest) with
        | some (frag, after) => frag :: scanFragments fuel after
        | none => scanFragments fuel rest
      else scanFragments fuel rest

/-- Reverse the double-encoding: un-double backslashes, then un-escape
quotes. -/
def unescapeFragment (s : String) : String :=
  strReplace (strReplace s "\\\\" "\\") "\\\"" "\""

def getField? (fields : List (String × Json)) (key : String) : Option Json :=
  (fields.find? (fun f => f.1 = key)).map (fun f => f.2)

/-- Decode one candidate fragment into a JSON object's field list;
malformed fragments yield `none` and are skipped. -/
def decodeFragment (frag : List Char) : Option (List (String × Json)) :=
  match parseJson (unescapeFragment ⟨frag⟩) with
  | some (.obj fields) => some fields
  | _ => none

/-- A Catalog Model Entry candidate must carry both `id` and
`publicName`. -/
def isValidModelEntry (fields : List (String × Json)) : Bool :=
  (getField? fields "id").isSome && (getField? fields "publicName").isSome

/-- The deduplication key: the serialized `publicName` value. -/
def publicNameKey (fields : List (String × Json)) : Option String :=
  (getField? fields "publicName").map jsonToString

/-- Deduplication loop: keep an entry only when its `publicName` key has
not been seen yet (first occurrence wins). -/
def dedupeByNameAux : List (List (String × Json)) → List (Option String) →
    List (List (String × Json))
  | [], _ => []
  | e :: rest, seen =>
      if publicNameKey e ∈ seen then dedupeByNameAux rest seen
      else e :: dedupeByNameAux rest (publicNameKey e :: seen)

/-- Deduplicate by the `publicName` value, first occurrence wins. -/
def dedupeByName (l : List (List (String × Json))) : List (List (String × Json)) :=
  dedupeByNameAux l []

/-- The HTML Model Scraper pipeline. -/
def extract_models_from_html (html : String) : List (List (String × Json)) :=
  dedupeByName (((scanFragments (strLength html) html.data).filterMap decodeFragment).filter
    isValidModelEntry)

/-! # Claim theorems -/

set_option maxRecDepth 100000

/-- C9: for every request to an endpoint wrapped by `require_api_key`,
when `Config.FLASK_API_KEY` is unset or empty the handler runs without
any credential check; when it is set, the handler runs if and only if the
Authorization header is present, starts with `Bearer `, and the token
following the first space equals the configured key — otherwise the
response is 401 and the handler is never invoked. -/
theorem C9_require_api_key (flaskApiKey authHeader : Option String) :
    (keyConfigured flaskApiKey = false →
      require_api_key flaskApiKey authHeader = .handled) ∧
    (keyConfigured flaskApiKey = true →
      (require_api_key flaskApiKey authHeader = .handled ↔
        ∃ h, authHeader = some h ∧ strStartsWith h "Bearer " = true ∧
          (strSplitOn h " ")[1]? = some (flaskApiKey.getD ""))) := by
  constructor
  · intro hk
    simp [require_api_key, hk]
  · intro hk
    cases authHeader with
    | none => simp [require_api_key, hk]
    | some h =>
      by_cases hs : strStartsWith h "Bearer "
      · cases hg : (strSplitOn h " ")[1]? with
        | none => simp [require_api_key, hk, hs, hg]
        | some tok =>
          by_cases ht : tok = flaskApiKey.getD ""
          · subst ht
            simp [require_api_key, hk, hs, hg]
          · simp [require_api_key, hk, hs, hg, ht]
      · simp [require_api_key, hk, hs]

/-- Witness for C9: a missing key skips the check, and a well-formed
bearer token with the configured key reaches the handler. -/
theorem C9_require_api_key_witness :
    require_api_key none (some "anything") = .handled ∧
    require_api_key (some "secret") (some "Bearer secret") = .handled :=
  ⟨(C9_require_api_key none (some "anything")).1 rfl,
   ((C9_require_api_key (some "secret") (some "Bearer secret")).2 rfl).mpr
     ⟨"Bearer secret", rfl, rfl, rfl⟩⟩

/-- C8: after `handle_platform_request` returns, the request id is absent
from `active_requests` on every exit path (successful handling,
unsupported type — both inside the no-exception branch — and the internal
exception path); a request with no request id returns the
`Missing request_id` error dict and leaves the state, counters included,
unchanged. -/
theorem C8_handle_platform_request (st : PIState) (request_id? : Option String)
    (request_type : String) (exc : Option String) (now : Nat) :
    (∀ rid, request_id? = some rid → rid ≠ "" →
      rid ∉ (handle_platform_request st request_id? request_type exc now).2.active_requests) ∧
    (request_id?.getD "" = "" →
      handle_platform_request st request_id? request_type exc now =
        (⟨true, "Missing request_id"⟩, st)) := by
  constructor
  · rintro rid rfl hne
    simp only [handle_platform_request, Option.getD_some, if_neg hne]
    cases exc <;> simp [dictDelete, List.mem_filter]
  · intro hmiss
    simp [handle_platform_request, hmiss]

/-- Witness for C8: a concrete request id is gone after handling, and a
missing id leaves a concrete state untouched. -/
theorem C8_handle_platform_request_witness :
    "r1" ∉ (handle_platform_request ⟨Stats.init, ["r0"]⟩ (some "r1")
        "chat_completion" none 5).2.active_requests ∧
    handle_platform_request ⟨Stats.init, ["r0"]⟩ none "chat_completion" none 5 =
      (⟨true, "Missing request_id"⟩, ⟨Stats.init, ["r0"]⟩) :=
  ⟨(C8_handle_platform_request ⟨Stats.init, ["r0"]⟩ (some "r1")
      "chat_completion" none 5).1 "r1" rfl (by decide),
   (C8_handle_platform_request ⟨Stats.init, ["r0"]⟩ none
      "chat_completion" none 5).2 rfl⟩

/-- C10: `get_stats` is total — the success-rate division is guarded by
`max(requests_processed, 1)`, which is never zero; on every reachable
statistics state with zero processed requests the reported rate is 0;
and whenever `requests_successful ≤ requests_processed` the rate lies
within [0, 100]. -/
theorem C10_get_stats_success_rate :
    (∀ st : Stats, (max st.requests_processed 1 : ℚ) ≠ 0) ∧
    (∀ st : Stats, ReachableStats st → st.requests_processed = 0 →
      success_rate st = 0) ∧
    (∀ st : Stats, st.requests_successful ≤ st.requests_processed →
      0 ≤ success_rate st ∧ success_rate st ≤ 100) := by
  have hmax : ∀ st : Stats, (0 : ℚ) < (max st.requests_processed 1 : ℚ) := by
    intro st
    exact_mod_cast Nat.lt_of_lt_of_le Nat.zero_lt_one (le_max_right _ _)
  refine ⟨fun st => (hmax st).ne', ?_, ?_⟩
  · have hzero : ∀ st : Stats, ReachableStats st → st.requests_processed = 0 →
        st.requests_successful = 0 := by
      intro st h
      induction h with
      | init => intro _; rfl
      | step st' success now _ _ => intro hp; simp [record_request] at hp
    intro st h hp
    simp [success_rate, hzero st h hp]
  · intro st hle
    have hsm : (st.requests_successful : ℚ) ≤ (max st.requests_processed 1 : ℚ) := by
      exact_mod_cast le_trans hle (le_max_left _ _)
    constructor
    · rw [success_rate]
      positivity
    · rw [success_rate]
      calc (st.requests_successful : ℚ) / (max st.requests_processed 1 : ℚ) * 100
          ≤ (max st.requests_processed 1 : ℚ) / (max st.requests_processed 1 : ℚ) * 100 := by
            gcongr
        _ = 100 := by rw [div_self (hmax st).ne']; ring

/-- Witness for C10: the fresh state reports rate 0, and one successful
request keeps the rate within bounds. -/
theorem C10_get_stats_success_rate_witness :
    success_rate Stats.init = 0 ∧
    (0 ≤ success_rate (record_request Stats.init true 3) ∧
      success_rate (record_request Stats.init true 3) ≤ 100) :=
  ⟨C10_get_stats_success_rate.2.1 Stats.init ReachableStats.init rfl,
   C10_get_stats_success_rate.2.2 (record_request Stats.init true 3) (by decide)⟩

/-- The frame sequence of the normal-flow stream scenario. -/
def c1Frames : List Frame :=
  [Frame.text "a0:\"Hello\"",
   Frame.text "bd:\x7b\"finishReason\":\"stop\"\x7d",
   Frame.text "[DONE]"]

theorem classify_hello :
    classifyFrame (Frame.text "a0:\"Hello\"") = .content "Hello" := rfl

theorem classify_finish_stop :
    classifyFrame (Frame.text "bd:\x7b\"finishReason\":\"stop\"\x7d") = .finish "stop" := rfl

theorem classify_done :
    classifyFrame (Frame.text "[DONE]") = .sentinel := rfl

/-- C1: delivering `a0:"Hello"`, `bd:\x7b"finishReason":"stop"\x7d`, `[DONE]`
to a registered request's channel makes the Stream Processor emit
`content("Hello")` and `finish("stop")`, stop at the end sentinel
(frames after it are never consumed), and unregister the request id from
the Request Multiplexer — the pending entry is removed exactly once
(`dictDelete`) on every exit path, for every frame sequence. -/
theorem C1_stream_normal_flow :
    (∀ extra : List Frame,
      processFrames (c1Frames ++ extra) =
        ([.content "Hello", .finish "stop"], [])) ∧
    StreamEvent.content "Hello" ∈ (process_lmarena_stream "req-1" ["req-1"] c1Frames).1 ∧
    StreamEvent.finish "stop" ∈ (process_lmarena_stream "req-1" ["req-1"] c1Frames).1 ∧
    (∀ (rid : String) (channels : List String) (frames : List Frame),
      (process_lmarena_stream rid channels frames).2.2 = dictDelete channels rid ∧
      rid ∉ (process_lmarena_stream rid channels frames).2.2) := by
  have h1 : ∀ extra : List Frame,
      processFrames (c1Frames ++ extra) = ([.content "Hello", .finish "stop"], []) := by
    intro extra
    simp [c1Frames, processFrames, classify_hello, classify_finish_stop, classify_done]
  have h2 := h1 []
  rw [List.append_nil] at h2
  refine ⟨h1, ?_, ?_, ?_⟩
  · simp [process_lmarena_stream, h2]
  · simp [process_lmarena_stream, h2]
  · intro rid channels frames
    exact ⟨rfl, by simp [process_lmarena_stream, dictDelete, List.mem_filter]⟩

/-- C2: for every frame whose raw text contains the anti-bot challenge
interstitial marker, the Stream Processor's first emitted event is an
error mentioning the challenge (Cloudflare), and exactly one `refresh`
command is issued through the tunnel. -/
theorem C2_cloudflare_triggers_refresh (s : String) (rid : String)
    (channels : List String) (rest : List Frame)
    (h : strContains s cloudflareMarker = true) :
    (process_lmarena_stream rid channels (Frame.text s :: rest)).1.head? =
      some (.error cloudflareErrorText) ∧
    strContains cloudflareErrorText "Cloudflare" = true ∧
    (process_lmarena_stream rid channels (Frame.text s :: rest)).2.1 = ["refresh"] := by
  have hc : classifyFrame (Frame.text s) = .cloudflare := by
    simp [classifyFrame, h]
  refine ⟨?_, rfl, ?_⟩ <;>
    simp [process_lmarena_stream, processFrames, hc]

/-- Witness for C2: a concrete challenge page frame produces the error
event first and exactly one refresh command. -/
theorem C2_cloudflare_triggers_refresh_witness :
    (process_lmarena_stream "rid-cf" ["rid-cf"]
        [Frame.text "<html><title>Just a moment...</title></html>"]).1.head? =
      some (.error cloudflareErrorText) ∧
    (process_lmarena_stream "rid-cf" ["rid-cf"]
        [Frame.text "<html><title>Just a moment...</title></html>"]).2.1 = ["refresh"] :=
  ⟨(C2_cloudflare_triggers_refresh
      "<html><title>Just a moment...</title></html>" "rid-cf" ["rid-cf"] [] rfl).1,
   (C2_cloudflare_triggers_refresh
      "<html><title>Just a moment...</title></html>" "rid-cf" ["rid-cf"] [] rfl).2.2⟩

/-- C3: `POST /v1/chat/completions` checks, in precedence order: missing
auth against a configured key gives 401; valid key with no active tunnel
gives 503; valid key, active tunnel, but placeholder resolved
session/message identifiers gives 400 — and every non-200 outcome sends
nothing through the tunnel. -/
theorem C3_chat_completions_precedence (cfg : GatewayConfig)
    (endpointMap : List (String × String × String)) (auth : Option String)
    (tunnel : Bool) (model : String) :
    (keyConfigured cfg.api_key = true → auth = none →
      chat_completions cfg endpointMap auth tunnel model = (401, [])) ∧
    (validBearerAuth (cfg.api_key.getD "") auth = true → tunnel = false →
      chat_completions cfg endpointMap auth tunnel model = (503, [])) ∧
    (validBearerAuth (cfg.api_key.getD "") auth = true → tunnel = true →
      (isPlaceholderId (resolveIds cfg endpointMap model).1 = true ∨
        isPlaceholderId (resolveIds cfg endpointMap model).2 = true) →
      chat_completions cfg endpointMap auth tunnel model = (400, [])) ∧
    ((chat_completions cfg endpointMap auth tunnel model).1 ≠ 200 →
      (chat_completions cfg endpointMap auth tunnel model).2 = []) := by
  refine ⟨?_, ?_, ?_, ?_⟩
  · rintro hk rfl
    simp [chat_completions, hk, validBearerAuth]
  · rintro hv rfl
    simp [chat_completions, hv]
  · rintro hv rfl hp
    rcases hp with hp | hp <;> simp [chat_completions, hv, hp]
  · simp only [chat_completions]
    split_ifs <;> simp

/-- Witness for C3: the three failure scenarios at concrete inputs. -/
theorem C3_chat_completions_precedence_witness :
    chat_completions ⟨some "secret-key", "S", "M"⟩ [] none true "m" = (401, []) ∧
    chat_completions ⟨some "secret-key", "S", "M"⟩ []
      (some "Bearer secret-key") false "m" = (503, []) ∧
    chat_completions ⟨some "secret-key", "YOUR_SESSION", "YOUR_MESSAGE"⟩ []
      (some "Bearer secret-key") true "m" = (400, []) :=
  ⟨(C3_chat_completions_precedence ⟨some "secret-key", "S", "M"⟩ [] none true "m").1 rfl rfl,
   (C3_chat_completions_precedence ⟨some "secret-key", "S", "M"⟩ []
      (some "Bearer secret-key") false "m").2.1 rfl rfl,
   (C3_chat_completions_precedence ⟨some "secret-key", "YOUR_SESSION", "YOUR_MESSAGE"⟩ []
      (some "Bearer secret-key") true "m").2.2.1 rfl rfl (Or.inl rfl)⟩

theorem process_system_str (c : String) :
    process_openai_message ⟨"system", OAIContent.str c⟩ = ("system", c, []) := rfl

theorem process_role (m : OAIMessage) :
    (process_openai_message m).1 = normalizeRole m.role := rfl

theorem collectLeadingSystem_append (contents : List String)
    (rest : List (String × String × List Attachment))
    (hrest : ∀ m, rest.head? = some m → m.1 ≠ "system") :
    collectLeadingSystem
        ((contents.map (fun c => ("system", c, ([] : List Attachment)))) ++ rest) =
      (contents, rest) := by
  induction contents with
  | nil =>
    cases rest with
    | nil => rfl
    | cons m r =>
      have hm : m.1 ≠ "system" := hrest m rfl
      simp [collectLeadingSystem, hm]
  | cons c cs ih =>
    simp [collectLeadingSystem, ih]

theorem mergeLeadingSystem_of_collect
    (msgs rest : List (String × String × List Attachment))
    (c : String) (cs : List String)
    (h : collectLeadingSystem msgs = (c :: cs, rest)) :
    mergeLeadingSystem msgs =
      ("system", strIntercalate "\n\n" (c :: cs), ([] : List Attachment)) :: rest := by
  rw [mergeLeadingSystem, h]

/-- C4: with tavern mode enabled the translator merges every leading
contiguous block of system messages into one system template whose
content joins the originals with a blank line and whose attachments are
empty; in particular `[system:"S1", system:"S2", user:"Hi"]` yields
exactly the merged system template at position `b` followed by the user
template at position `a`. -/
theorem C4_tavern_merges_leading_system :
    (∀ (cfg : ModeConfig) (mm : List (String × String)) (model : String)
        (contents : List String) (rest : List OAIMessage) (sid mid : String),
      cfg.tavern_mode_enabled = true → contents ≠ [] →
      (∀ m, rest.head? = some m → normalizeRole m.role ≠ "system") →
      (convert_openai_to_lmarena_payload cfg mm model
          ((contents.map (fun c => ⟨"system", OAIContent.str c⟩)) ++ rest) sid
          mid).message_templates.head? =
        some { role := "system", content := strIntercalate "\n\n" contents,
               participantPosition := participantPositionFor cfg "system",
               attachments := [] }) ∧
    (convert_openai_to_lmarena_payload ⟨true, false, "direct_chat", "A"⟩ []
        "unknown-model"
        [⟨"system", .str "S1"⟩, ⟨"system", .str "S2"⟩, ⟨"user", .str "Hi"⟩]
        "SID" "MID").message_templates =
      [{ role := "system", content := "S1\n\nS2", participantPosition := "b",
         attachments := [] },
       { role := "user", content := "Hi", participantPosition := "a",
         attachments := [] }] := by
  constructor
  · intro cfg mm model contents rest sid mid htav hne hrest
    obtain ⟨c, cs, rfl⟩ := List.exists_cons_of_ne_nil hne
    have hrest₂ : ∀ m, (rest.map process_openai_message).head? = some m →
        m.1 ≠ "system" := by
      cases rest with
      | nil => intro m hm; simp at hm
      | cons m₀ r =>
        intro m hm
        simp only [List.map_cons, List.head?_cons, Option.some.injEq] at hm
        subst hm
        rw [process_role]
        exact hrest m₀ rfl
    have hcol := collectLeadingSystem_append (c :: cs)
      (rest.map process_openai_message) hrest₂
    simp only [convert_openai_to_lmarena_payload, htav, if_true, List.map_append,
      List.map_map, Function.comp_def, process_system_str]
    rw [mergeLeadingSystem_of_collect _ _ _ _ hcol]
    cases hb : cfg.bypass_enabled <;> simp
  · rfl

/-- Witness for C4 at the concrete tavern-mode request (with bypass mode
also on, exercising the hypotheses). -/
theorem C4_tavern_merges_leading_system_witness :
    (convert_openai_to_lmarena_payload ⟨true, true, "direct_chat", "A"⟩ [] "m"
        (((["S1", "S2"]).map (fun c => ⟨"system", OAIContent.str c⟩)) ++
          [⟨"user", OAIContent.str "Hi"⟩]) "SID" "MID").message_templates.head? =
      some { role := "system", content := strIntercalate "\n\n" ["S1", "S2"],
             participantPosition :=
               participantPositionFor ⟨true, true, "direct_chat", "A"⟩ "system",
             attachments := [] } :=
  C4_tavern_merges_leading_system.1 ⟨true, true, "direct_chat", "A"⟩ [] "m"
    ["S1", "S2"] [⟨"user", OAIContent.str "Hi"⟩] "SID" "MID" rfl (by decide)
    (fun m hm => by
      simp only [List.head?_cons, Option.some.injEq] at hm
      subst hm
      decide)

/-- C5: with bypass mode enabled, the translated template list is the
bypass-disabled translation with exactly one synthetic trailing user
template `\x7brole: user, content: " ", participantPosition: "a",
attachments: []\x7d` appended, which is therefore the last element. -/
theorem C5_bypass_appends_trailing (cfg : ModeConfig) (mm : List (String × String))
    (model : String) (messages : List OAIMessage) (sid mid : String)
    (h : cfg.bypass_enabled = true) :
    (convert_openai_to_lmarena_payload cfg mm model messages sid
        mid).message_templates =
      (convert_openai_to_lmarena_payload { cfg with bypass_enabled := false } mm
          model messages sid mid).message_templates ++ [bypassTemplate] ∧
    (convert_openai_to_lmarena_payload cfg mm model messages sid
        mid).message_templates.getLast? = some bypassTemplate := by
  have hbase : (convert_openai_to_lmarena_payload cfg mm model messages sid
        mid).message_templates =
      (convert_openai_to_lmarena_payload { cfg with bypass_enabled := false } mm
          model messages sid mid).message_templates ++ [bypassTemplate] := by
    simp [convert_openai_to_lmarena_payload, h, participantPositionFor]
  refine ⟨hbase, ?_⟩
  rw [hbase, List.getLast?_concat]

/-- Witness for C5: bypass mode on a one-message request appends the
synthetic trailing user template. -/
theorem C5_bypass_appends_trailing_witness :
    (convert_openai_to_lmarena_payload ⟨false, true, "direct_chat", "A"⟩ [] "m"
        [⟨"user", OAIContent.str "Hi"⟩] "SID" "MID").message_templates.getLast? =
      some bypassTemplate :=
  (C5_bypass_appends_trailing ⟨false, true, "direct_chat", "A"⟩ [] "m"
    [⟨"user", OAIContent.str "Hi"⟩] "SID" "MID" rfl).2

/-- The content fragment carried by an event, if any. -/
def contentOf : StreamEvent → Option String
  | .content t => some t
  | _ => none

/-- The finish reason carried by an event, if any. -/
def finishOf : StreamEvent → Option String
  | .finish r => some r
  | _ => none

theorem empty_strAppend (s : String) : "" ++ s = s := by
  cases s; rfl

theorem aggregateEventsFrom_no_error (events : List StreamEvent) :
    ∀ (buf : String) (reason? : Option String),
    (∀ msg, StreamEvent.error msg ∉ events) →
    aggregateEventsFrom events buf reason? =
      .completion (buf ++ strJoin (events.filterMap contentOf))
        ((reason?.orElse (fun _ => (events.filterMap finishOf).head?)).getD "stop") := by
  induction events with
  | nil =>
    intro buf reason? _
    cases buf with
    | mk data =>
      cases reason? <;> simp [aggregateEventsFrom, strJoin, String.append]
  | cons e rest ih =>
    intro buf reason? h
    have hrest : ∀ msg, StreamEvent.error msg ∉ rest := fun msg hm =>
      h msg (List.mem_cons_of_mem _ hm)
    cases e with
    | content t =>
      rw [aggregateEventsFrom, ih (buf ++ t) reason? hrest]
      simp [contentOf, finishOf, strJoin, String.append_assoc]
    | finish r =>
      cases reason? with
      | none =>
        rw [aggregateEventsFrom, if_neg (by simp), ih buf (some r) hrest]
        simp [contentOf, finishOf]
      | some r₀ =>
        rw [aggregateEventsFrom, if_pos (by simp), ih buf (some r₀) hrest]
        simp [contentOf, finishOf]
    | error m =>
      exact absurd (List.mem_cons_self _ _) (h m)

theorem sseLines_getLast? (model rid : String) (events : List StreamEvent) :
    (sseLines model rid events).getLast? = some doneLine := by
  induction events with
  | nil => rfl
  | cons e rest ih =>
    cases e with
    | content t =>
      rw [sseLines]
      cases hs : sseLines model rid rest with
      | nil => rw [hs] at ih; cases ih
      | cons x xs =>
        rw [hs] at ih
        rw [List.getLast?_cons_cons]
        exact ih
    | finish r => rfl
    | error m => rfl

/-- C7: in non-stream mode the formatter concatenates all content
fragments in arrival order and uses the first finish reason (default
`stop`); the fake stream `content("Hello "), content("World"),
finish("stop")` yields a completion with message content `"Hello World"`,
and in stream mode the SSE rendering is both content delta chunks
followed by the terminal chunk and a final `data: [DONE]` line — which
ends every rendered stream. -/
theorem C7_response_formatter :
    (non_stream_response "m" "cid"
        [.content "Hello ", .content "World", .finish "stop"] =
      .ok { object := "chat.completion", model := "m", id := "cid",
            message_content := "Hello World", finish_reason := "stop" }) ∧
    (∀ events : List StreamEvent, (∀ msg, StreamEvent.error msg ∉ events) →
      aggregateEvents events =
        .completion (strJoin (events.filterMap contentOf))
          ((events.filterMap finishOf).head?.getD "stop")) ∧
    (sseLines "m" "cid" [.content "Hello ", .content "World", .finish "stop"] =
      [format_openai_chunk "Hello " "m" "cid",
       format_openai_chunk "World" "m" "cid",
       format_openai_finish_chunk "m" "cid" "stop", doneLine]) ∧
    (∀ events : List StreamEvent,
      (sseLines "m" "cid" events).getLast? = some doneLine) := by
  refine ⟨rfl, ?_, rfl, fun events => sseLines_getLast? "m" "cid" events⟩
  intro events h
  rw [aggregateEvents, aggregateEventsFrom_no_error events "" none h,
    empty_strAppend]
  rfl

/-- Witness for C7: the aggregation characterization at the concrete
error-free event sequence. -/
theorem C7_response_formatter_witness :
    aggregateEvents [.content "Hello ", .content "World", .finish "stop"] =
      .completion
        (strJoin ([StreamEvent.content "Hello ", .content "World",
          .finish "stop"].filterMap contentOf))
        (([StreamEvent.content "Hello ", .content "World",
          .finish "stop"].filterMap finishOf).head?.getD "stop") :=
  C7_response_formatter.2.1 [.content "Hello ", .content "World", .finish "stop"]
    (by intro msg hm; simp at hm)

/-- The scraper's candidate list before deduplication: decoded,
well-formed objects carrying both `id` and `publicName`. -/
def validEntries (html : String) : List (List (String × Json)) :=
  ((scanFragments (strLength html) html.data).filterMap decodeFragment).filter
    isValidModelEntry

theorem extract_eq (html : String) :
    extract_models_from_html html = dedupeByName (validEntries html) := rfl

theorem dedupeByNameAux_sublist (l : List (List (String × Json))) :
    ∀ seen, (dedupeByNameAux l seen).Sublist l := by
  induction l with
  | nil => intro seen; simp [dedupeByNameAux]
  | cons e rest ih =>
    intro seen
    rw [dedupeByNameAux]
    by_cases hm : publicNameKey e ∈ seen
    · rw [if_pos hm]; exact (ih seen).cons e
    · rw [if_neg hm]; exact (ih _).cons₂ e

theorem dedupeByNameAux_keys (l : List (List (String × Json))) :
    ∀ seen : List (Option String),
      ((dedupeByNameAux l seen).map publicNameKey).Nodup ∧
      ∀ k ∈ (dedupeByNameAux l seen).map publicNameKey, k ∉ seen := by
  induction l with
  | nil => intro seen; exact ⟨List.nodup_nil, by simp [dedupeByNameAux]⟩
  | cons e rest ih =>
    intro seen
    rw [dedupeByNameAux]
    by_cases hm : publicNameKey e ∈ seen
    · rw [if_pos hm]; exact ih seen
    · rw [if_neg hm]
      obtain ⟨ihn, ihs⟩ := ih (publicNameKey e :: seen)
      refine ⟨?_, ?_⟩
      · rw [List.map_cons, List.nodup_cons]
        exact ⟨fun hk => (ihs _ hk) (List.mem_cons_self _ _), ihn⟩
      · rw [List.map_cons]
        intro k hk hkseen
        rcases List.mem_cons.mp hk with rfl | hk₂
        · exact hm hkseen
        · exact (ihs k hk₂) (List.mem_cons_of_mem _ hkseen)

theorem dedupeByNameAux_find? (n : Option String) (l : List (List (String × Json))) :
    ∀ seen : List (Option String), n ∉ seen →
      (dedupeByNameAux l seen).find? (fun e => publicNameKey e = n) =
        l.find? (fun e => publicNameKey e = n) := by
  induction l with
  | nil => intro seen _; rfl
  | cons e rest ih =>
    intro seen hn
    rw [dedupeByNameAux]
    by_cases hm : publicNameKey e ∈ seen
    · have hne : ¬ publicNameKey e = n := fun h => hn (h ▸ hm)
      rw [if_pos hm, ih seen hn, List.find?_cons_of_neg]
      simp [hne]
    · rw [if_neg hm]
      by_cases he : publicNameKey e = n
      · rw [List.find?_cons_of_pos, List.find?_cons_of_pos] <;> simp [he]
      · rw [List.find?_cons_of_neg _ (by simp [he]),
          List.find?_cons_of_neg _ (by simp [he]),
          ih (publicNameKey e :: seen)]
        intro hmem
        rcases List.mem_cons.mp hmem with h | h
        · exact he h.symm
        · exact hn h

/-- Concrete doubly-escaped fragments for the scraper scenarios: a valid
Catalog Model Entry, a malformed fragment, and an object lacking `id`. -/
def goodFrag : String :=
  "\x7b\\\\\"id\\\\\":\\\\\"aaaa\\\\\",\\\\\"publicName\\\\\":\\\\\"Same\\\\\",\\\\\"k\\\\\":1\x7d"

def badFrag : String := "\x7b\\\\\"broken\\\\\":\x7d"

def noIdFrag : String := "\x7b\\\\\"publicName\\\\\":\\\\\"Other\\\\\"\x7d"

/-- The entry `goodFrag` decodes to. -/
def goodEntry : List (String × Json) :=
  [("id", Json.str "aaaa"), ("publicName", Json.str "Same"), ("k", Json.num "1")]

/-- C6: the scraper keeps only decoded objects containing both `id` and
`publicName`, deduplicates by `publicName` with the first occurrence
winning (`find?` at any name is unchanged by deduplication), returns
entries in first-seen order (a sublist of the pre-deduplication
candidates); two escaped occurrences of the same `publicName` yield
exactly one entry, and malformed or `id`-less fragments are skipped
without failing. -/
theorem C6_extract_models_from_html :
    (∀ html : String,
      extract_models_from_html html = dedupeByName (validEntries html)) ∧
    (∀ html : String, ∀ e ∈ extract_models_from_html html,
      isValidModelEntry e = true) ∧
    (∀ html : String, ((extract_models_from_html html).map publicNameKey).Nodup) ∧
    (∀ html : String, (extract_models_from_html html).Sublist (validEntries html)) ∧
    (∀ (html : String) (n : Option String),
      (extract_models_from_html html).find? (fun e => publicNameKey e = n) =
        (validEntries html).find? (fun e => publicNameKey e = n)) ∧
    extract_models_from_html (goodFrag ++ goodFrag) = [goodEntry] ∧
    extract_models_from_html (badFrag ++ noIdFrag ++ goodFrag ++ goodFrag) =
      [goodEntry] := by
  refine ⟨extract_eq, ?_, ?_, ?_, ?_, rfl, rfl⟩
  · intro html e he
    rw [extract_eq] at he
    have h₂ : e ∈ validEntries html :=
      (dedupeByNameAux_sublist (validEntries html) []).subset he
    exact (List.mem_filter.mp h₂).2
  · intro html
    rw [extract_eq]
    exact (dedupeByNameAux_keys (validEntries html) []).1
  · intro html
    rw [extract_eq]
    exact dedupeByNameAux_sublist (validEntries html) []
  · intro html n
    rw [extract_eq]
    exact dedupeByNameAux_find? n (validEntries html) [] (List.not_mem_nil n)

/-- Witness for C6: the single deduplicated entry of the two-occurrence
page indeed carries both `id` and `publicName`. -/
theorem C6_extract_models_from_html_witness :
    isValidModelEntry goodEntry = true :=
  C6_extract_models_from_html.2.1 (goodFrag ++ goodFrag) goodEntry
    (by rw [C6_extract_models_from_html.2.2.2.2.2.1]
        exact List.mem_singleton.mpr rfl)

end LMProxy
